import Mathlib

/-!
# Verification of the extraction-and-classification engine of `src/app.py`

Shallow embedding of the Streamlit web-scraper script `src/app.py`
(repository `Ai-Scraping`).  The parsed HTML document is modelled as a
tree of nodes (BeautifulSoup's tag tree restricted to the operations the
script uses: `find_all` with a tag-name list and a `text`/`href` lambda,
`.text`, `.string`, attribute access, and `select` with a CSS selector).
The function `scrape_website` is translated branch by branch; Streamlit
display calls (`st.warning`, `st.error`) and the outer `except` that turns
a raised exception into a displayed message plus a `None` return are
modelled by the `ScrapeResult.error` constructor carrying `str(e)`.
-/

/-- A node of the parsed HTML tree: either an element with a tag name, an
attribute list (keys unique in practice) and ordered children, or a piece
of text (BeautifulSoup's `NavigableString`). -/
inductive HNode where
  | elem (tag : String) (attrs : List (String × String)) (children : List HNode)
  | text (s : String)

/-- Python's substring test `needle in hay`, on character lists:
`listStarts n h` is `n` being a prefix of `h`. -/
def listStarts : List Char → List Char → Bool
  | [], _ => true
  | _ :: _, [] => false
  | a :: as, b :: bs => a == b && listStarts as bs

/-- `listOccurs n h`: `n` occurs as a contiguous sublist of `h`. -/
def listOccurs : List Char → List Char → Bool
  | n, [] => listStarts n []
  | n, c :: rest => listStarts n (c :: rest) || listOccurs n rest

/-- Python's `needle in hay` for strings. -/
def strContains (hay needle : String) : Bool :=
  listOccurs needle.data hay.data

/-- Python's `s.startswith(prefix)`. -/
def strStartsWith (s pre : String) : Bool :=
  listStarts pre.data s.data

/-- Python's `s.lower()`, character by character.  `Char.toLower` lowers
only ASCII letters where Python lowers full Unicode; the keywords the
script compares against (`price`, `email`, `$`) are ASCII, and `€`/`£`
are uncased, so the two agree on every input at stake. -/
def strToLower (s : String) : String :=
  ⟨s.data.map Char.toLower⟩

/-- Python's `s.strip()`: drop leading and trailing whitespace. -/
def strTrim (s : String) : String :=
  ⟨((s.data.dropWhile Char.isWhitespace).reverse.dropWhile
      Char.isWhitespace).reverse⟩

/-- One fuel-indexed pass of Python's `s.replace(pat, repl)` (replace
every non-overlapping occurrence, left to right).  Each step consumes at
least one character, so fuel `= length of the input` is exact; the empty
pattern never occurs in the script (`'mailto:'`). -/
def replaceFuel (pat repl : List Char) : Nat → List Char → List Char
  | 0, l => l
  | _ + 1, [] => []
  | f + 1, c :: rest =>
      if pat ≠ [] && listStarts pat (c :: rest) then
        repl ++ replaceFuel pat repl f (List.drop (pat.length - 1) rest)
      else
        c :: replaceFuel pat repl f rest

/-- Python's `s.replace(pat, repl)`. -/
def strReplace (s pat repl : String) : String :=
  ⟨replaceFuel pat.data repl.data s.data.length s.data⟩

/-- Split on whitespace, dropping empty pieces (how an HTML `class`
attribute value lists its classes); `acc` holds the reversed current
token. -/
def splitWs (acc : List Char) : List Char → List String
  | [] => if acc.isEmpty then [] else [⟨acc.reverse⟩]
  | c :: rest =>
      if c.isWhitespace then
        if acc.isEmpty then splitWs [] rest
        else (⟨acc.reverse⟩ : String) :: splitWs [] rest
      else splitWs (c :: acc) rest

mutual

/-- Element nodes of a subtree in document order (the node itself first,
then its descendants), as `find_all` with a tag-name filter enumerates
them: BeautifulSoup yields matching tags in pre-order document order. -/
def elemsOf : HNode → List HNode
  | .text _ => []
  | .elem t a cs => .elem t a cs :: allElems cs

/-- Element nodes of a forest in document order. -/
def allElems : List HNode → List HNode
  | [] => []
  | n :: rest => elemsOf n ++ allElems rest

end

mutual

/-- `tag.text` / `get_text()` in BeautifulSoup: the concatenation of all
strings of the subtree in document order. -/
def HNode.getText : HNode → String
  | .text s => s
  | .elem _ _ cs => getTextList cs

/-- Concatenated text of a forest. -/
def getTextList : List HNode → String
  | [] => ""
  | n :: rest => n.getText ++ getTextList rest

end

mutual

/-- BeautifulSoup's `tag.string`: the string of the node's sole child if
it has exactly one (following single-child chains), `None` otherwise.
This is the value handed to the `text=` lambda of `find_all`. -/
def HNode.string? : HNode → Option String
  | .text s => some s
  | .elem _ _ cs => stringOfList cs

/-- `tag.string` of a child list: only a singleton has one. -/
def stringOfList : List HNode → Option String
  | [c] => HNode.string? c
  | _ => none

end

/-- Attribute lookup, `tag.get(key)` / `tag[key]` (first binding wins). -/
def getAttr (attrs : List (String × String)) (k : String) : Option String :=
  (attrs.find? (fun p => p.1 == k)).map (fun p => p.2)

/-- Tag name of a node (elements only; strings have none). -/
def nodeTag : HNode → String
  | .elem t _ _ => t
  | .text _ => ""

/-- Attribute of a node (`tag.get(key)`): `None` on strings and on
elements without the attribute. -/
def attrOf (n : HNode) (k : String) : Option String :=
  match n with
  | .elem _ attrs _ => getAttr attrs k
  | .text _ => none

/-- The `text=` lambda of the Price scan in `scrape_website`
(src/app.py line 113): `lambda text: text and ('$' in text or '€' in text
or '£' in text)`; `None` and the empty string are falsy. -/
def currencyText : Option String → Bool
  | none => false
  | some s =>
      s != "" && (strContains s "$" || strContains s "€" || strContains s "£")

/-- The `href=` lambda of the Email scan (src/app.py line 121):
`lambda href: href and 'mailto:' in href`. -/
def mailtoHref : Option String → Bool
  | none => false
  | some h => h != "" && strContains h "mailto:"

/-- `soup.find_all(['span', 'div', 'p'], text=...)` of the Price rule:
elements in document order whose tag is span/div/p and whose `.string`
satisfies the currency lambda. -/
def priceNodes (doc : List HNode) : List HNode :=
  (allElems doc).filter fun n =>
    (nodeTag n == "span" || nodeTag n == "div" || nodeTag n == "p")
      && currencyText n.string?

/-- `soup.find_all(['a'], href=...)` of the Email rule: anchor elements in
document order whose href attribute satisfies the mailto lambda. -/
def emailNodes (doc : List HNode) : List HNode :=
  (allElems doc).filter fun n =>
    nodeTag n == "a" && mailtoHref (attrOf n "href")

/-- An extracted row: a mapping from column name to string value, kept as
an association list in column order (one dict of the `extracted_data`
list / one row of the resulting DataFrame). -/
def Row := List (String × String)
deriving instance Repr, DecidableEq for Row

/-- Results of fallible stages are `Except`; decidable equality lets
concrete runs be checked by `decide`. -/
instance {e a : Type} [DecidableEq e] [DecidableEq a] :
    DecidableEq (Except e a) :=
  fun x y =>
    match x, y with
    | .ok u, .ok v =>
        if h : u = v then .isTrue (by rw [h]) else .isFalse (by simp [h])
    | .ok _, .error _ => .isFalse (by simp)
    | .error _, .ok _ => .isFalse (by simp)
    | .error u, .error v =>
        if h : u = v then .isTrue (by rw [h]) else .isFalse (by simp [h])

/-- Rows of the Price rule (src/app.py line 117):
`{'Type': 'Price', 'Content': p.text.strip()}` per matched node.
Python's `.strip()` is modelled by `String.trim` (both drop leading and
trailing whitespace; the inputs at stake are ASCII). -/
def priceRowOf (p : HNode) : Row :=
  [("Type", "Price"), ("Content", strTrim p.getText)]

/-- All Price rows of a document, in document order. -/
def priceRows (doc : List HNode) : List Row :=
  (priceNodes doc).map priceRowOf

/-- The href of an anchor (defaulting to `""`; the Email rule only reads
it on nodes the `href=` filter accepted, where it is present). -/
def hrefOf : HNode → String
  | .elem _ attrs _ => (getAttr attrs "href").getD ""
  | .text _ => ""

/-- Rows of the Email rule (src/app.py line 124):
`{'Type': 'Email', 'Content': e['href'].replace('mailto:', '')}`;
`String.replace` replaces every occurrence, as Python's `str.replace`
does. -/
def emailRowOf (e : HNode) : Row :=
  [("Type", "Email"), ("Content", strReplace (hrefOf e) "mailto:" "")]

/-- All Email rows of a document, in document order. -/
def emailRows (doc : List HNode) : List Row :=
  (emailNodes doc).map emailRowOf

/-- The Smart Extract branch of `scrape_website` (src/app.py lines
101-132), for a document that fetched and parsed successfully.
`description` is `Option String` so that an absent (`None`) and an empty
description are both covered by Python's falsiness test
`if not description`.  Python's `.lower()` is modelled by
`String.toLower` (agreeing on the ASCII keywords `price`/`email` at
stake).  On success the collected `extracted_data` list is returned
(order: all Price rows, then all Email rows); nothing inside the scans
can raise, so the inner `except` wrapper is dead code here. -/
def smartExtract (doc : List HNode) (description : Option String) :
    Except String (List Row) :=
  match description with
  | none => .error "Description is required for Smart Extract"
  | some d =>
      if d = "" then .error "Description is required for Smart Extract"
      else
        let descLower := strToLower d
        let priced :=
          if strContains descLower "price" || strContains descLower "$" then
            priceRows doc
          else []
        let mailed :=
          if strContains descLower "email" then emailRows doc else []
        .ok (priced ++ mailed)

/-! ## The CSS selector engine (`soup.select`) -/

/-- A character of a CSS identifier (tag, class or id name). -/
def isNameChar (c : Char) : Bool :=
  c.isAlphanum || c == '-' || c == '_'

/-- Longest identifier prefix of a character list, with the remainder. -/
def takeName : List Char → List Char × List Char
  | [] => ([], [])
  | c :: rest =>
      if isNameChar c then
        let p := takeName rest
        (c :: p.1, p.2)
      else ([], c :: rest)

/-- A parsed compound CSS selector of the subset the script's users
supply (`div.class-name`, `#id`, `[attr]` and combinations). -/
structure SimpleSel where
  tagName : Option String
  classes : List String
  ids : List String
  attrsPresent : List String
deriving Repr, DecidableEq

/-- Modelled from the spec: the CSS-selector query parser behind
`soup.select` belongs to the external HTML-parser collaborator ("a
navigable node tree supporting tag/attribute queries and CSS-selector
queries") and its code is not in the repository.  It is modelled for the
compound-selector subset the spec exercises: optional tag name followed
by `.class`, `#id` and `[attr]` parts; anything else — in particular an
unbalanced bracket — is a syntax error carrying a message, the spec's
"selector syntax errors signal `InvalidSelectorError` with the underlying
parser message".  `fuel` bounds the recursion; every step consumes at
least one character, so fuel = input length is exact. -/
def parseSelAux (sel : SimpleSel) : Nat → List Char → Except String SimpleSel
  | _, [] => .ok sel
  | 0, _ => .error "selector parser out of fuel"
  | f + 1, '.' :: rest =>
      match takeName rest with
      | ([], _) => .error "Malformed class selector"
      | (n, r) =>
          parseSelAux { sel with classes := sel.classes ++ [⟨n⟩] } f r
  | f + 1, '#' :: rest =>
      match takeName rest with
      | ([], _) => .error "Malformed id selector"
      | (n, r) => parseSelAux { sel with ids := sel.ids ++ [⟨n⟩] } f r
  | f + 1, '[' :: rest =>
      match takeName rest with
      | ([], _) => .error "Malformed attribute selector"
      | (n, r) =>
          match r with
          | ']' :: r2 =>
              parseSelAux { sel with attrsPresent := sel.attrsPresent ++ [⟨n⟩] }
                f r2
          | _ => .error "Unclosed attribute selector"
  | f + 1, c :: rest =>
      if isNameChar c
          && sel.tagName.isNone && sel.classes.isEmpty
          && sel.ids.isEmpty && sel.attrsPresent.isEmpty then
        match takeName (c :: rest) with
        | (n, r) => parseSelAux { sel with tagName := some ⟨n⟩ } f r
      else .error "Unsupported selector syntax"

/-- Parse a selector string (empty selectors are malformed). -/
def parseSelector (s : String) : Except String SimpleSel :=
  if s = "" then .error "Empty selector"
  else parseSelAux ⟨none, [], [], []⟩ s.data.length s.data

/-- Class list of an element: the whitespace-separated words of its
`class` attribute. -/
def classList (attrs : List (String × String)) : List String :=
  splitWs [] ((getAttr attrs "class").getD "").data

/-- Does a node match a parsed selector?  Tag name equal (when given),
every selector class among the node's classes, id equal, and every
bracketed attribute present. -/
def selMatches (s : SimpleSel) : HNode → Bool
  | .text _ => false
  | .elem t attrs _ =>
      (match s.tagName with
       | none => true
       | some tg => t == tg)
      && s.classes.all (fun c => (classList attrs).contains c)
      && s.ids.all (fun i => getAttr attrs "id" == some i)
      && s.attrsPresent.all (fun a => (getAttr attrs a).isSome)

/-- `soup.select(sel)`: all matching elements in document order. -/
def selectAll (s : SimpleSel) (doc : List HNode) : List HNode :=
  (allElems doc).filter (selMatches s)

/-- Serialized attribute list, ` key="value"` per attribute. -/
def renderAttrs : List (String × String) → String
  | [] => ""
  | (k, v) :: rest => " " ++ k ++ "=\"" ++ v ++ "\"" ++ renderAttrs rest

mutual

/-- `str(element)`: the serialized outer markup of a node (BeautifulSoup
prints start tag, attributes, children, end tag). -/
def HNode.render : HNode → String
  | .text s => s
  | .elem t attrs cs =>
      "<" ++ t ++ renderAttrs attrs ++ ">" ++ renderList cs ++ "</" ++ t ++ ">"

/-- Serialized markup of a forest. -/
def renderList : List HNode → String
  | [] => ""
  | n :: rest => n.render ++ renderList rest

end

/-- The Custom Elements branch of `scrape_website` (src/app.py lines
134-149): a missing/empty tag raises
`ValueError("Custom tag is required ...")`; a selector the parser rejects
raises inside `soup.select` and is wrapped by the branch's `except` as
`"Invalid CSS selector: {selector_err}"`; otherwise one row
`{'Content': element.text.strip(), 'HTML': str(element)}` per matched
element, in document order, with the empty match list a valid empty
DataFrame (after an advisory `st.warning`). -/
def customElements (doc : List HNode) (custom_tag : Option String) :
    Except String (List Row) :=
  match custom_tag with
  | none => .error "Custom tag is required for Custom Elements option"
  | some t =>
      if t = "" then .error "Custom tag is required for Custom Elements option"
      else
        match parseSelector t with
        | .error msg => .error ("Invalid CSS selector: " ++ msg)
        | .ok sel =>
            .ok ((selectAll sel doc).map fun el =>
              [("Content", strTrim el.getText), ("HTML", el.render)])

/-! ## The whole pipeline -/

/-- The outcome of `requests.get` as `scrape_website` distinguishes it
(src/app.py lines 78-92): one of the three caught transport exceptions,
or a response carrying its final status code and — since the claims under
study never exercise a parse failure and `html.parser` is lenient — the
already-parsed document tree. -/
inductive FetchOutcome where
  | timeout
  | sslError
  | connectionError
  | response (status : Nat) (doc : List HNode)

/-- Observable result of one `scrape_website` call: a returned DataFrame
(`rows`), a bare `None` return without any displayed error (the implicit
fall-through for the options whose branch the file elides), or a raised
exception that the outer `except` turns into `st.error(str(e))` plus a
`None` return (`error` carries `str(e)`). -/
inductive ScrapeResult where
  | rows (rs : List Row)
  | nothing
  | error (msg : String)
deriving Repr, DecidableEq

/-- `scrape_website(url, option, custom_tag, description)` of src/app.py
lines 67-157, with the transport outcome passed explicitly.  Stages in
source order: the scheme check (`ValueError` before any network call),
the exception classification of the fetch — `raise_for_status` raises
`HTTPError` exactly for status codes 400-599, special-cased to the
403/404 messages (for other codes requests' own message includes the
status text of the server, abbreviated here to the status number) — and
the dispatch on the scraping option. -/
def scrape_website (url : String) (outcome : FetchOutcome)
    (option : String) (custom_tag description : Option String) :
    ScrapeResult :=
  if !(strStartsWith url "http://" || strStartsWith url "https://") then
    .error "URL must start with http:// or https://"
  else
    match outcome with
    | .timeout =>
        .error "Request timed out. The website took too long to respond."
    | .sslError =>
        .error "SSL Certificate verification failed. The website might not be secure."
    | .connectionError =>
        .error "Failed to connect to the website. Please check your internet connection."
    | .response status doc =>
        if 400 ≤ status ∧ status < 600 then
          if status == 403 then
            .error "Access forbidden. The website might be blocking web scrapers."
          else if status == 404 then
            .error "Page not found. Please check if the URL is correct."
          else .error ("HTTP error occurred: " ++ toString status)
        else
          if option = "Smart Extract" then
            match smartExtract doc description with
            | .ok rs => .rows rs
            | .error m => .error m
          else if option = "Custom Elements" then
            match customElements doc custom_tag with
            | .ok rs => .rows rs
            | .error m => .error m
          else .nothing

/-! ## Modes whose branch src/app.py elides

The `Text Content`, `Links` and `Images` branches of `scrape_website`
are reduced in the committed file to the placeholder comment
`# ... (rest of the scraping options)` (src/app.py line 151), although the
sidebar offers all three options; they are therefore modelled from the
spec's mode table (§4.4). -/

/-- An anchor element carrying an href attribute. -/
def isAnchorWithHref (n : HNode) : Bool :=
  nodeTag n == "a" && (attrOf n "href").isSome

/-- Modelled from the spec: the Links branch, elided from src/app.py —
"all anchor nodes with an href attribute", columns {Content, Href},
one row per node in document order. -/
def linksMode (doc : List HNode) : List Row :=
  ((allElems doc).filter isAnchorWithHref).map fun n =>
    [("Content", strTrim n.getText), ("Href", (attrOf n "href").getD "")]

/-- A text-bearing leaf-ish element: only string children, and the
trimmed text non-empty (the spec leaves the granularity engine-defined). -/
def isTextBearing : HNode → Bool
  | .text _ => false
  | .elem _ _ cs =>
      (cs.all fun c =>
        match c with
        | .text _ => true
        | .elem _ _ _ => false)
      && strTrim (getTextList cs) != ""

/-- Modelled from the spec: the Text Content branch, elided from
src/app.py — "all text-bearing leaf-ish nodes (engine-defined
granularity)", column {Content}, one row per node in document order. -/
def textMode (doc : List HNode) : List Row :=
  ((allElems doc).filter isTextBearing).map fun n =>
    [("Content", strTrim n.getText)]

/-- An image element carrying a source attribute. -/
def isImageWithSrc (n : HNode) : Bool :=
  nodeTag n == "img" && (attrOf n "src").isSome

/-- Modelled from the spec: the Images branch, elided from src/app.py —
"all image nodes with a source attribute", columns {Src, Alt}, one row
per node in document order (a missing alt text serializes empty). -/
def imagesMode (doc : List HNode) : List Row :=
  ((allElems doc).filter isImageWithSrc).map fun n =>
    [("Src", (attrOf n "src").getD ""), ("Alt", (attrOf n "alt").getD "")]

/-! ## Fixtures (§8 of the spec) -/

/-- Fixture with exactly one anchor, `href="mailto:a@b.com"`. -/
def emailFixture : List HNode :=
  [HNode.elem "html" []
    [HNode.elem "body" []
      [HNode.elem "p" [] [HNode.text "Reach us at"],
       HNode.elem "a" [("href", "mailto:a@b.com")] [HNode.text "Contact"]]]]

/-- Fixture with two spans containing `$10` and `$25` (with surrounding
whitespace, to exercise the trimming) and one span with no currency
symbol. -/
def priceFixture : List HNode :=
  [HNode.elem "div" []
    [HNode.elem "span" [] [HNode.text "  $10 "],
     HNode.elem "span" [] [HNode.text "$25"],
     HNode.elem "span" [] [HNode.text "free"]]]

/-! ## Claims -/

/-- A convenience projection: the column names of a row, in order. -/
def rowKeys (r : Row) : List String :=
  List.map Prod.fst r

/-- C5: on a document whose only anchor has a mailto href
`mailto:a@b.com`, Smart Extract with description `find emails` returns
exactly one row `{Type: Email, Content: a@b.com}`: the mailto target with
the prefix stripped. -/
theorem smartExtract_email_fixture_row :
    smartExtract emailFixture (some "find emails")
      = .ok [[("Type", "Email"), ("Content", "a@b.com")]] := by decide

/-- C6: on a document with two spans containing `$10` and `$25` and one
span with no currency symbol, Smart Extract with description `price list`
returns exactly two rows, in document order of the matched nodes, with
Content the trimmed original node text. -/
theorem smartExtract_price_fixture_rows :
    smartExtract priceFixture (some "price list")
      = .ok [[("Type", "Price"), ("Content", "$10")],
             [("Type", "Price"), ("Content", "$25")]] := by decide

/-- C4: Smart Extract with an absent or empty description signals the
missing-description error, regardless of the document content; an error
is returned instead of rows. -/
theorem smartExtract_missing_description_error (doc : List HNode)
    (d : Option String) (hd : d = none ∨ d = some "") :
    smartExtract doc d
      = .error "Description is required for Smart Extract" := by
  rcases hd with h | h <;> subst h <;> simp [smartExtract]

/-- Witness for C4 at a concrete non-trivial document. -/
theorem smartExtract_missing_description_error_witness :
    smartExtract emailFixture (some "")
      = .error "Description is required for Smart Extract" :=
  smartExtract_missing_description_error emailFixture (some "") (Or.inr rfl)

/-- C1, counterexample: the description `amount in €` contains the
currency symbol `€` — one of the Price-rule triggers the claim lists —
and the document has span nodes whose text contains `$`, so the claim
requires Price rows; but the trigger test of src/app.py line 110 checks
only `'price' in desc_lower or '$' in desc_lower`, so no rule fires and
Smart Extract returns zero rows. -/
theorem smartExtract_euro_trigger_counterexample :
    strContains (strToLower "amount in €") "€" = true
    ∧ priceRows priceFixture ≠ []
    ∧ smartExtract priceFixture (some "amount in €") = .ok [] := by decide

/-- C1, amended: for every parsed document and every non-empty
description that case-insensitively contains the word `price` or the
symbol `$` (`€` and `£` in the description do not trigger), Smart Extract
fires the Price rule: it scans the span/div/p nodes whose string contains
`$`, `€` or `£` and emits one row `{Type: Price, Content: trimmed node
text}` per such node, ahead of any Email rows. -/
theorem smartExtract_price_trigger_fires (doc : List HNode) (d : String)
    (hd : ¬ d = "")
    (ht : (strContains (strToLower d) "price"
            || strContains (strToLower d) "$") = true) :
    smartExtract doc (some d)
      = .ok ((priceNodes doc).map priceRowOf
            ++ (if strContains (strToLower d) "email" then emailRows doc
                else [])) := by
  simp [smartExtract, hd, ht, priceRows]

/-- Witness for the amended C1: an upper-case `Price` description firing
the rule on the price fixture. -/
theorem smartExtract_price_trigger_fires_witness :
    smartExtract priceFixture (some "Price tags")
      = .ok ((priceNodes priceFixture).map priceRowOf
            ++ (if strContains (strToLower "Price tags") "email" then
                  emailRows priceFixture
                else [])) :=
  smartExtract_price_trigger_fires priceFixture "Price tags" (by decide)
    (by decide)

/-- C10: for every parsed document and non-empty description that, after
lowercasing, contains neither of the Price-rule triggers (`price`, `$`)
nor the word `email`, Smart Extract succeeds with an empty result — the
pipeline returns an empty DataFrame (zero rows), not an error. -/
theorem scrape_smart_no_keyword_empty_rows (url : String) (status : Nat)
    (doc : List HNode) (d : String)
    (hurl : (strStartsWith url "http://"
              || strStartsWith url "https://") = true)
    (hstatus : ¬ (400 ≤ status ∧ status < 600))
    (hd : ¬ d = "")
    (hp : strContains (strToLower d) "price" = false)
    (hdollar : strContains (strToLower d) "$" = false)
    (he : strContains (strToLower d) "email" = false) :
    scrape_website url (.response status doc) "Smart Extract" none (some d)
      = .rows [] := by
  simp [scrape_website, hurl, hstatus, smartExtract, hd, hp, hdollar, he]

/-- Witness for C10: the description `article titles` on a page that does
contain a mailto anchor still yields a successful empty result. -/
theorem scrape_smart_no_keyword_empty_rows_witness :
    scrape_website "https://example.com" (.response 200 emailFixture)
        "Smart Extract" none (some "article titles")
      = .rows [] :=
  scrape_smart_no_keyword_empty_rows "https://example.com" 200 emailFixture
    "article titles" (by decide) (by decide) (by decide) (by decide)
    (by decide) (by decide)

/-- C7: for every document and every selector string the selector parser
rejects, the Custom Elements branch signals the invalid-selector error
carrying the underlying parser message, rather than returning rows or an
empty result. -/
theorem customElements_invalid_selector (doc : List HNode) (t msg : String)
    (ht : ¬ t = "") (hbad : parseSelector t = .error msg) :
    customElements doc (some t)
      = .error ("Invalid CSS selector: " ++ msg) := by
  simp [customElements, ht, hbad]

/-- Witness for C7: the unbalanced-bracket selector `div[href`. -/
theorem customElements_invalid_selector_witness :
    customElements emailFixture (some "div[href")
      = .error ("Invalid CSS selector: " ++ "Unclosed attribute selector") :=
  customElements_invalid_selector emailFixture "div[href"
    "Unclosed attribute selector" (by decide) (by decide)

/-- C8: for every document and every selector the parser accepts that
matches no node, the Custom Elements branch returns an empty result,
which is distinguishable from every error. -/
theorem customElements_no_match_empty (doc : List HNode) (t : String)
    (sel : SimpleSel) (ht : ¬ t = "")
    (hok : parseSelector t = .ok sel)
    (hnone : selectAll sel doc = []) :
    customElements doc (some t) = .ok []
      ∧ ∀ m : String,
          (Except.ok [] : Except String (List Row)) ≠ .error m := by
  refine ⟨by simp [customElements, ht, hok, hnone], ?_⟩
  intro m h
  exact Except.noConfusion h

/-- Witness for C8: `div.missing-class` against the email fixture, which
has no element of that class. -/
theorem customElements_no_match_empty_witness :
    customElements emailFixture (some "div.missing-class") = .ok []
      ∧ ∀ m : String,
          (Except.ok [] : Except String (List Row)) ≠ .error m :=
  customElements_no_match_empty emailFixture "div.missing-class"
    ⟨some "div", ["missing-class"], [], []⟩ (by decide) (by decide) rfl

/-- C9: for every fetch whose response status is 404, the pipeline
signals the page-not-found error, and for 403 the forbidden error —
whatever the page content, the selected option and the mode parameters,
so no parse result is consumed and no rows are produced; the messages
contain "not found" and "forbidden" respectively, and an error result is
never a row result. -/
theorem scrape_http_404_403_abort (url : String) (doc doc2 : List HNode)
    (opt : String) (ct d : Option String)
    (hurl : (strStartsWith url "http://"
              || strStartsWith url "https://") = true) :
    scrape_website url (.response 404 doc) opt ct d
        = .error "Page not found. Please check if the URL is correct."
    ∧ scrape_website url (.response 403 doc2) opt ct d
        = .error "Access forbidden. The website might be blocking web scrapers."
    ∧ strContains "Page not found. Please check if the URL is correct."
        "not found" = true
    ∧ strContains "Access forbidden. The website might be blocking web scrapers."
        "forbidden" = true
    ∧ (∀ rs : List Row,
        ScrapeResult.error "Page not found. Please check if the URL is correct."
          ≠ .rows rs) := by
  refine ⟨by simp [scrape_website, hurl], by simp [scrape_website, hurl],
    by decide, by decide, ?_⟩
  intro rs h
  exact ScrapeResult.noConfusion h

/-- Witness for C9 at concrete responses. -/
theorem scrape_http_404_403_abort_witness :
    scrape_website "https://example.com" (.response 404 emailFixture)
        "Smart Extract" none (some "find emails")
        = .error "Page not found. Please check if the URL is correct."
    ∧ scrape_website "https://example.com" (.response 403 priceFixture)
        "Smart Extract" none (some "find emails")
        = .error "Access forbidden. The website might be blocking web scrapers."
    ∧ strContains "Page not found. Please check if the URL is correct."
        "not found" = true
    ∧ strContains "Access forbidden. The website might be blocking web scrapers."
        "forbidden" = true
    ∧ (∀ rs : List Row,
        ScrapeResult.error "Page not found. Please check if the URL is correct."
          ≠ .rows rs) :=
  scrape_http_404_403_abort "https://example.com" emailFixture priceFixture
    "Smart Extract" none (some "find emails") (by decide)

/-- C2: (the Text Content, Links and Images branches are modelled from
the spec, their code being elided from src/app.py) each mode emits one
row per qualifying node — anchors with an href, text-bearing nodes,
images with a src — in document order: the i-th row is the row of the
i-th qualifying node, and every row carries exactly the mode's columns. -/
theorem elided_modes_row_shape (doc : List HNode) :
    ((linksMode doc).length
        = ((allElems doc).filter isAnchorWithHref).length
      ∧ (∀ i, (linksMode doc).get? i
          = (((allElems doc).filter isAnchorWithHref).get? i).map
              (fun n => [("Content", strTrim n.getText),
                         ("Href", (attrOf n "href").getD "")]))
      ∧ ∀ r ∈ linksMode doc, rowKeys r = ["Content", "Href"])
    ∧ ((textMode doc).length
        = ((allElems doc).filter isTextBearing).length
      ∧ (∀ i, (textMode doc).get? i
          = (((allElems doc).filter isTextBearing).get? i).map
              (fun n => [("Content", strTrim n.getText)]))
      ∧ ∀ r ∈ textMode doc, rowKeys r = ["Content"])
    ∧ ((imagesMode doc).length
        = ((allElems doc).filter isImageWithSrc).length
      ∧ (∀ i, (imagesMode doc).get? i
          = (((allElems doc).filter isImageWithSrc).get? i).map
              (fun n => [("Src", (attrOf n "src").getD ""),
                         ("Alt", (attrOf n "alt").getD "")]))
      ∧ ∀ r ∈ imagesMode doc, rowKeys r = ["Src", "Alt"]) := by
  refine ⟨⟨?_, ?_, ?_⟩, ⟨?_, ?_, ?_⟩, ⟨?_, ?_, ?_⟩⟩
  · simp [linksMode]
  · intro i; simp [linksMode, List.get?_eq_getElem?, List.getElem?_map]
  · intro r hr
    simp only [linksMode, List.mem_map] at hr
    obtain ⟨n, _, rfl⟩ := hr
    rfl
  · simp [textMode]
  · intro i; simp [textMode, List.get?_eq_getElem?, List.getElem?_map]
  · intro r hr
    simp only [textMode, List.mem_map] at hr
    obtain ⟨n, _, rfl⟩ := hr
    rfl
  · simp [imagesMode]
  · intro i; simp [imagesMode, List.get?_eq_getElem?, List.getElem?_map]
  · intro r hr
    simp only [imagesMode, List.mem_map] at hr
    obtain ⟨n, _, rfl⟩ := hr
    rfl
